import Mathlib

/-!
Shallow embedding of src/lib/IncomingStreamTrackMirrored.js.

The mirror class holds a reference to the original incoming track, an
attach counter, and a map (insertion-ordered) of mirrored encodings,
each pairing a duplication buffer (Native.RTPIncomingMediaStreamMultiplexer)
with a depacketizer (Native.RTPIncomingMediaStreamDepacketizer).
State-mutating methods are embedded as functions from the mirror state to
an `Except` of the next state together with an ordered list of observable
effects (calls on external objects, counter mutations and emitter events),
mirroring the statement order of the JavaScript method bodies; a JavaScript
TypeError raised by dereferencing a cleared (null) reference is embedded as
`Except.error`, with the effects performed before the throw reported
alongside where the claim needs them.
-/

namespace MediaServer

/-- One encoding of the original incoming track: its id and the SSRC of its
media source (encoding.source.media.ssrc in the JavaScript). -/
structure Encoding where
  id : String
  ssrc : Nat
deriving DecidableEq, Repr

/-- The original incoming track consumed by the mirror (external collaborator).
Besides its current encoding map it carries the values its read-only query
methods return; the mirror forwards those queries verbatim. -/
structure SourceTrack where
  encodings : List Encoding
  trackId : String
  media : String
  statsVal : Nat
  activeLayersVal : Nat
  trackInfoVal : Nat
  ssrcsVal : Nat
deriving DecidableEq, Repr

def SourceTrack.getStats (t : SourceTrack) : Nat := t.statsVal

def SourceTrack.getActiveLayers (t : SourceTrack) : Nat := t.activeLayersVal

def SourceTrack.getId (t : SourceTrack) : String := t.trackId

def SourceTrack.getTrackInfo (t : SourceTrack) : Nat := t.trackInfoVal

def SourceTrack.getSSRCs (t : SourceTrack) : Nat := t.ssrcsVal

def SourceTrack.getMedia (t : SourceTrack) : String := t.media

/-- Modelled from the spec: the Native.RTPIncomingMediaStreamMultiplexer
(the per-encoding duplication buffer) is a native-addon object missing from
src/; per the spec it is a duplication buffer bound to the encoding SSRC it
was constructed with, and the JavaScript reads that SSRC back through
source.media.ssrc. We model it by the SSRC it is bound to. -/
structure DupBuffer where
  ssrc : Nat
deriving DecidableEq, Repr

/-- One entry of the mirror's encoding map: the id, the duplication buffer
(source) and the buffer that the depacketizer created from it reads from. -/
structure MirrorEncoding where
  id : String
  source : DupBuffer
  depacketizer : DupBuffer
deriving DecidableEq, Repr

/-- Observable effects of a mirror method, in statement order: calls
forwarded to the original track, counter mutations, emitter events, listener
registration and removal, Stop calls on native objects, and PLI requests. -/
inductive Effect where
  | forwardAttached
  | incCounter
  | emitAttached
  | forwardDetached
  | decCounter
  | emitDetached
  | addBufListener (id : String) (ssrc : Nat)
  | removeBufListener (id : String)
  | stopSource (id : String)
  | stopDepacketizer (id : String)
  | emitStopped
  | sendPLI (ssrc : Nat)
deriving DecidableEq, Repr

/-- A JavaScript TypeError from dereferencing null/undefined. -/
inductive JsError where
  | nullDeref (loc : String)
deriving DecidableEq, Repr

/-- The mutable state of an IncomingStreamTrackMirrored instance:
this.track (null once stopped), this.receiver (modelled by whether it is
still set), this.counter, and this.encodings (insertion-ordered map). -/
structure MirrorState where
  track : Option SourceTrack
  receiver : Bool
  counter : Int
  encodings : List MirrorEncoding
deriving DecidableEq, Repr

/-- The constructor loop body: for each encoding of the original track,
build a duplication buffer bound to encoding.source.media.ssrc and a
depacketizer reading from that same buffer, keyed by the encoding id. -/
def mkMirrorEncodings : List Encoding → List MirrorEncoding
  | [] => []
  | e :: rest =>
    { id := e.id, source := { ssrc := e.ssrc }, depacketizer := { ssrc := e.ssrc } }
      :: mkMirrorEncodings rest

/-- The AddListener calls the constructor performs, in loop order. -/
def mkListenerEffects : List Encoding → List Effect
  | [] => []
  | e :: rest => Effect.addBufListener e.id e.ssrc :: mkListenerEffects rest

/-- The constructor: store the track and receiver, zero the counter, and
snapshot the track's current encodings into the mirror map, registering one
duplication buffer as listener per encoding. -/
def construct (t : SourceTrack) : MirrorState × List Effect :=
  ({ track := some t
     receiver := true
     counter := 0
     encodings := mkMirrorEncodings t.encodings },
   mkListenerEffects t.encodings)

/-- attached(): this.track.attached() (throws if this.track is null), then
this.counter++, then emit "attached" if the new counter equals 1. -/
def MirrorState.attached (s : MirrorState) : Except JsError (MirrorState × List Effect) :=
  match s.track with
  | none => Except.error (JsError.nullDeref "this.track.attached")
  | some _ =>
    Except.ok ({ s with counter := s.counter + 1 },
      [Effect.forwardAttached, Effect.incCounter]
        ++ (if s.counter + 1 = 1 then [Effect.emitAttached] else []))

/-- detached(): this.track.detached() (throws if this.track is null), then
this.counter--, then emit "detached" if the new counter equals 0. -/
def MirrorState.detached (s : MirrorState) : Except JsError (MirrorState × List Effect) :=
  match s.track with
  | none => Except.error (JsError.nullDeref "this.track.detached")
  | some _ =>
    Except.ok ({ s with counter := s.counter - 1 },
      [Effect.forwardDetached, Effect.decCounter]
        ++ (if s.counter - 1 = 0 then [Effect.emitDetached] else []))

/-- refresh() loop body: one SendPLI per mirrored encoding, addressed to the
encoding's duplication-buffer SSRC (encoding.source.media.ssrc). -/
def pliEffects : List MirrorEncoding → List Effect
  | [] => []
  | e :: rest => Effect.sendPLI e.source.ssrc :: pliEffects rest

/-- refresh(): for each mirrored encoding, this.receiver.SendPLI(...); the
loop body dereferences this.receiver, so it throws only when the encoding
map is non-empty while the receiver has been cleared. -/
def MirrorState.refresh (s : MirrorState) : Except JsError (List Effect) :=
  match s.encodings with
  | [] => Except.ok []
  | _ :: _ =>
    if s.receiver then Except.ok (pliEffects s.encodings)
    else Except.error (JsError.nullDeref "this.receiver.SendPLI")

/-- The first stop() loop: iterate the original track's current encodings,
look each id up in the mirror map (this.encodings.get(id).source throws on a
miss) and remove the duplication buffer as listener. Returns the removals
performed before any miss, and whether the loop completed. -/
def removeLoop (ms : List MirrorEncoding) : List Encoding → List Effect × Bool
  | [] => ([], true)
  | te :: rest =>
    match ms.find? (fun me => me.id == te.id) with
    | none => ([], false)
    | some _ =>
      (Effect.removeBufListener te.id :: (removeLoop ms rest).1, (removeLoop ms rest).2)

/-- The second stop() loop: Stop the duplication buffer then the
depacketizer of every mirrored encoding, in map order. -/
def stopEffects : List MirrorEncoding → List Effect
  | [] => []
  | e :: rest => Effect.stopSource e.id :: Effect.stopDepacketizer e.id :: stopEffects rest

/-- The post-stop state: encoding map cleared, track and receiver
references nulled out; the counter field is untouched by stop(). -/
def clearedState (c : Int) : MirrorState :=
  { track := none, receiver := false, counter := c, encodings := [] }

/-- stop(): return immediately if this.track is already null; otherwise
remove listeners (original-track encoding order), Stop buffers and
depacketizers (mirror map order), emit "stopped", clear the encoding map and
null out the track and receiver references. A miss in the first loop throws
after the removals already performed and before any Stop call. -/
def MirrorState.stop (s : MirrorState) : Except JsError MirrorState × List Effect :=
  match s.track with
  | none => (Except.ok s, [])
  | some t =>
    if (removeLoop s.encodings t.encodings).2 then
      (Except.ok (clearedState s.counter),
       (removeLoop s.encodings t.encodings).1 ++ stopEffects s.encodings ++ [Effect.emitStopped])
    else
      (Except.error (JsError.nullDeref "this.encodings.get(id).source"),
       (removeLoop s.encodings t.encodings).1)

/-- getStats(): return this.track.getStats() (throws on a stopped mirror). -/
def MirrorState.getStats (s : MirrorState) : Except JsError Nat :=
  match s.track with
  | some t => Except.ok t.getStats
  | none => Except.error (JsError.nullDeref "this.track.getStats")

/-- getActiveLayers(): return this.track.getActiveLayers(). -/
def MirrorState.getActiveLayers (s : MirrorState) : Except JsError Nat :=
  match s.track with
  | some t => Except.ok t.getActiveLayers
  | none => Except.error (JsError.nullDeref "this.track.getActiveLayers")

/-- getId(): return this.track.getId(). -/
def MirrorState.getId (s : MirrorState) : Except JsError String :=
  match s.track with
  | some t => Except.ok t.getId
  | none => Except.error (JsError.nullDeref "this.track.getId")

/-- getTrackInfo(): return this.track.getTrackInfo(). -/
def MirrorState.getTrackInfo (s : MirrorState) : Except JsError Nat :=
  match s.track with
  | some t => Except.ok t.getTrackInfo
  | none => Except.error (JsError.nullDeref "this.track.getTrackInfo")

/-- getSSRCs(): return this.track.getSSRCs(). -/
def MirrorState.getSSRCs (s : MirrorState) : Except JsError Nat :=
  match s.track with
  | some t => Except.ok t.getSSRCs
  | none => Except.error (JsError.nullDeref "this.track.getSSRCs")

/-- getMedia(): return this.track.getMedia(). -/
def MirrorState.getMedia (s : MirrorState) : Except JsError String :=
  match s.track with
  | some t => Except.ok t.getMedia
  | none => Except.error (JsError.nullDeref "this.track.getMedia")

/-- External mutation of the live original track: an encoding appended to
the source after mirror construction (the mirror holds the same track
reference, so its track field sees the new encoding). -/
def MirrorState.sourceAddEncoding (s : MirrorState) (e : Encoding) : MirrorState :=
  { s with track := s.track.map (fun t => { t with encodings := t.encodings ++ [e] }) }

/-- A lifecycle call in an attach/detach call sequence. -/
inductive ADOp where
  | att
  | det
deriving DecidableEq, Repr

/-- Dispatch one attach/detach call. -/
def adStep (s : MirrorState) : ADOp → Except JsError (MirrorState × List Effect)
  | ADOp.att => s.attached
  | ADOp.det => s.detached

/-- Run a sequence of attached()/detached() calls, concatenating the
effects; a JavaScript exception aborts the sequence. -/
def runAD (s : MirrorState) : List ADOp → Except JsError (MirrorState × List Effect)
  | [] => Except.ok (s, [])
  | op :: rest =>
    match adStep s op with
    | Except.error e => Except.error e
    | Except.ok (s1, tr1) =>
      match runAD s1 rest with
      | Except.error e => Except.error e
      | Except.ok (s2, tr2) => Except.ok (s2, tr1 ++ tr2)

/-- Number of occurrences of an effect in a trace. -/
def countEff (x : Effect) : List Effect → Nat
  | [] => 0
  | e :: rest => (if e = x then 1 else 0) + countEff x rest

/-- The call sequence never detaches more than it attached: every detach
finds a strictly positive counter (claim-side predicate). -/
def balancedFrom (c : Int) : List ADOp → Bool
  | [] => true
  | ADOp.att :: rest => balancedFrom (c + 1) rest
  | ADOp.det :: rest => if c ≤ 0 then false else balancedFrom (c - 1) rest

/-- Number of transitions of the attach count from 0 to 1 in a call
sequence starting at count c (claim-side counting function). -/
def upTransitions (c : Int) : List ADOp → Nat
  | [] => 0
  | ADOp.att :: rest => (if c = 0 then 1 else 0) + upTransitions (c + 1) rest
  | ADOp.det :: rest => upTransitions (c - 1) rest

/-- Number of transitions of the attach count from 1 to 0 in a call
sequence starting at count c (claim-side counting function). -/
def downTransitions (c : Int) : List ADOp → Nat
  | [] => 0
  | ADOp.att :: rest => downTransitions (c + 1) rest
  | ADOp.det :: rest => (if c = 1 then 1 else 0) + downTransitions (c - 1) rest

/-- Concrete one-encoding source track used by the witnesses (the scenario
of the spec: encoding "0" with SSRC 1000). -/
def t0 : SourceTrack :=
  { encodings := [{ id := "0", ssrc := 1000 }]
    trackId := "track0"
    media := "video"
    statsVal := 7
    activeLayersVal := 3
    trackInfoVal := 5
    ssrcsVal := 9 }

/-- Freshly constructed mirror of t0. -/
def m0 : MirrorState := (construct t0).1

/-- The state m0 reaches after its first stop(). -/
def mStopped : MirrorState := clearedState 0

/-- The source track t0 after an encoding "1"/SSRC 2000 is appended to the
live track post-construction. -/
def t1 : SourceTrack :=
  { t0 with encodings := t0.encodings ++ [{ id := "1", ssrc := 2000 }] }

/-- The mirror m0 after the live source track gained encoding "1". -/
def m1 : MirrorState := m0.sourceAddEncoding { id := "1", ssrc := 2000 }

/-! Helper lemmas shared by several verification theorems. -/

/-- Counting an effect distributes over trace concatenation. -/
theorem countEff_append (x : Effect) (a b : List Effect) :
    countEff x (a ++ b) = countEff x a + countEff x b := by
  induction a with
  | nil => simp [countEff]
  | cons e rest ih => simp [countEff, ih]; omega

/-- The constructor snapshot keeps the source encoding ids, in order. -/
theorem mkMirrorEncodings_map_id (es : List Encoding) :
    (mkMirrorEncodings es).map MirrorEncoding.id = es.map Encoding.id := by
  induction es with
  | nil => rfl
  | cons e rest ih => simp [mkMirrorEncodings, ih]

/-- Every snapshot entry mirrors some source encoding: same id, buffer bound
to that encoding's SSRC, depacketizer reading from that very buffer. -/
theorem mem_mkMirrorEncodings (es : List Encoding) :
    ∀ me ∈ mkMirrorEncodings es,
      ∃ en ∈ es, me.id = en.id ∧ me.source.ssrc = en.ssrc ∧ me.depacketizer = me.source := by
  induction es with
  | nil => simp [mkMirrorEncodings]
  | cons e rest ih =>
    intro me hme
    rcases (by simpa [mkMirrorEncodings] using hme :
        me = { id := e.id, source := { ssrc := e.ssrc }, depacketizer := { ssrc := e.ssrc } }
          ∨ me ∈ mkMirrorEncodings rest) with h | h
    · exact ⟨e, by simp, by simp [h], by simp [h], by simp [h]⟩
    · obtain ⟨en, hen, hh⟩ := ih me h
      exact ⟨en, by simp [hen], hh⟩

/-- The constructor's listener registrations, one per source encoding. -/
theorem mkListenerEffects_eq_map (es : List Encoding) :
    mkListenerEffects es = es.map (fun en => Effect.addBufListener en.id en.ssrc) := by
  induction es with
  | nil => rfl
  | cons e rest ih => simp [mkListenerEffects, ih]

/-- The refresh loop sends one PLI per mirrored encoding, in map order. -/
theorem pliEffects_eq_map (ms : List MirrorEncoding) :
    pliEffects ms = ms.map (fun me => Effect.sendPLI me.source.ssrc) := by
  induction ms with
  | nil => rfl
  | cons e rest ih => simp [pliEffects, ih]

/-- The listener-removal loop completes exactly when every current source
encoding id is present in the mirror's snapshot map. -/
theorem removeLoop_true_iff (ms : List MirrorEncoding) (tes : List Encoding) :
    (removeLoop ms tes).2 = true ↔ ∀ te ∈ tes, ∃ me ∈ ms, me.id = te.id := by
  induction tes with
  | nil => simp [removeLoop]
  | cons te rest ih =>
    cases hf : ms.find? (fun me => me.id == te.id) with
    | none =>
      have hnone : ∀ me ∈ ms, ¬ me.id = te.id := by
        intro me hme
        have := (List.find?_eq_none.mp hf) me hme
        simpa using this
      simp only [removeLoop, hf]
      constructor
      · intro h; cases h
      · intro h
        obtain ⟨me, hme, hid⟩ := h te (by simp)
        exact absurd hid (hnone me hme)
    | some me0 =>
      simp only [removeLoop, hf]
      rw [ih]
      constructor
      · intro h te2 hte2
        rcases (by simpa using hte2 : te2 = te ∨ te2 ∈ rest) with h2 | h2
        · subst h2
          exact ⟨me0, List.mem_of_find?_eq_some hf, by simpa using List.find?_some hf⟩
        · exact h te2 h2
      · intro h te2 hte2
        exact h te2 (by simp [hte2])

/-- Whatever happens in the listener-removal loop, its trace holds listener
removals only: no Stop calls and no emitter events. -/
theorem removeLoop_effects_shape (ms : List MirrorEncoding) (tes : List Encoding) :
    ∀ eff ∈ (removeLoop ms tes).1, ∃ i, eff = Effect.removeBufListener i := by
  induction tes with
  | nil => simp [removeLoop]
  | cons te rest ih =>
    cases hf : ms.find? (fun me => me.id == te.id) with
    | none => simp [removeLoop, hf]
    | some me0 =>
      intro eff heff
      rcases (by simpa [removeLoop, hf] using heff :
          eff = Effect.removeBufListener te.id ∨ eff ∈ (removeLoop ms rest).1) with h | h
      · exact ⟨te.id, h⟩
      · exact ih eff h

/-- When every current source encoding id is in the snapshot, the removal
loop performs exactly one listener removal per source encoding, in order. -/
theorem removeLoop_complete (ms : List MirrorEncoding) (tes : List Encoding)
    (h : ∀ te ∈ tes, ∃ me ∈ ms, me.id = te.id) :
    removeLoop ms tes = (tes.map (fun te => Effect.removeBufListener te.id), true) := by
  induction tes with
  | nil => simp [removeLoop]
  | cons te rest ih =>
    obtain ⟨me, hmem, hid⟩ := h te (by simp)
    have hsome : (ms.find? (fun me => me.id == te.id)).isSome := by
      rw [List.find?_isSome]
      exact ⟨me, hmem, by simpa using hid⟩
    obtain ⟨me0, hf⟩ := Option.isSome_iff_exists.mp hsome
    have ihr := ih (fun te2 ht2 => h te2 (by simp [ht2]))
    simp [removeLoop, hf, ihr]

/-- The Stop-call loop never emits events. -/
theorem countEff_emitStopped_stopEffects (ms : List MirrorEncoding) :
    countEff Effect.emitStopped (stopEffects ms) = 0 := by
  induction ms with
  | nil => rfl
  | cons e rest ih => simp [stopEffects, countEff, ih]

/-- The listener-removal trace never emits events. -/
theorem countEff_emitStopped_removals (tes : List Encoding) :
    countEff Effect.emitStopped (tes.map (fun te => Effect.removeBufListener te.id)) = 0 := by
  induction tes with
  | nil => rfl
  | cons te rest ih => simp [countEff, ih]

/-- stop() on an already-stopped mirror is the guarded early return. -/
theorem stop_track_none (s : MirrorState) (h : s.track = none) :
    s.stop = (Except.ok s, []) := by
  unfold MirrorState.stop
  rw [h]

/-- A successful stop() of a live mirror ends in the cleared state and its
trace is removals, then Stop calls, then the single stopped event. -/
theorem stop_some_ok_eq (s s' : MirrorState) (t : SourceTrack) (tr : List Effect)
    (ht : s.track = some t) (h : s.stop = (Except.ok s', tr)) :
    s' = clearedState s.counter ∧
    (removeLoop s.encodings t.encodings).2 = true ∧
    tr = (removeLoop s.encodings t.encodings).1 ++ stopEffects s.encodings
          ++ [Effect.emitStopped] := by
  simp only [MirrorState.stop, ht] at h
  by_cases hr : (removeLoop s.encodings t.encodings).2 = true
  · rw [if_pos hr] at h
    have h1 := congrArg Prod.fst h
    have h2 := congrArg Prod.snd h
    simp only at h1 h2
    injection h1 with h1
    exact ⟨h1.symm, hr, h2.symm⟩
  · rw [if_neg hr] at h
    have h1 := congrArg Prod.fst h
    simp only at h1
    cases h1

/-- Any successful stop() leaves the track reference null. -/
theorem stop_ok_track_none (s s' : MirrorState) (tr : List Effect)
    (h : s.stop = (Except.ok s', tr)) : s'.track = none := by
  cases ht : s.track with
  | none =>
    rw [stop_track_none s ht] at h
    have h1 := congrArg Prod.fst h
    simp only at h1
    injection h1 with h1
    rw [← h1]
    exact ht
  | some t =>
    obtain ⟨h1, _, _⟩ := stop_some_ok_eq s s' t tr ht h
    rw [h1]
    rfl

/-- attached() on a live mirror: forward, increment, then the event
decision on the incremented counter. -/
theorem attached_some_eq (s : MirrorState) (t : SourceTrack) (ht : s.track = some t) :
    s.attached = Except.ok ({ s with counter := s.counter + 1 },
      [Effect.forwardAttached, Effect.incCounter]
        ++ (if s.counter + 1 = 1 then [Effect.emitAttached] else [])) := by
  simp only [MirrorState.attached, ht]

/-- detached() on a live mirror: forward, decrement, then the event
decision on the decremented counter. -/
theorem detached_some_eq (s : MirrorState) (t : SourceTrack) (ht : s.track = some t) :
    s.detached = Except.ok ({ s with counter := s.counter - 1 },
      [Effect.forwardDetached, Effect.decCounter]
        ++ (if s.counter - 1 = 0 then [Effect.emitDetached] else [])) := by
  simp only [MirrorState.detached, ht]

/-- Running any attach/detach sequence on a live mirror succeeds, keeps the
track reference, and its trace carries one "attached" event per 0→1
transition and one "detached" event per 1→0 transition of the counter. -/
theorem runAD_counts (ops : List ADOp) :
    ∀ (s : MirrorState) (t : SourceTrack), s.track = some t →
      ∃ s' tr, runAD s ops = Except.ok (s', tr) ∧ s'.track = some t ∧
        countEff Effect.emitAttached tr = upTransitions s.counter ops ∧
        countEff Effect.emitDetached tr = downTransitions s.counter ops := by
  induction ops with
  | nil =>
    intro s t ht
    exact ⟨s, [], rfl, ht, rfl, rfl⟩
  | cons op rest ih =>
    intro s t ht
    cases op with
    | att =>
      obtain ⟨s', tr, hrun, ht', ha, hd⟩ := ih { s with counter := s.counter + 1 } t ht
      refine ⟨s', ([Effect.forwardAttached, Effect.incCounter]
          ++ (if s.counter + 1 = 1 then [Effect.emitAttached] else [])) ++ tr,
        ?_, ht', ?_, ?_⟩
      · simp [runAD, adStep, attached_some_eq s t ht, hrun]
      · rw [countEff_append, ha]
        by_cases h1 : s.counter + 1 = 1
        · have h0 : s.counter = 0 := by omega
          simp [countEff, h1, h0, upTransitions]
        · have h0 : ¬ s.counter = 0 := by omega
          simp [countEff, h1, h0, upTransitions]
      · rw [countEff_append, hd]
        by_cases h1 : s.counter + 1 = 1
        · simp [countEff, h1, downTransitions]
        · simp [countEff, h1, downTransitions]
    | det =>
      obtain ⟨s', tr, hrun, ht', ha, hd⟩ := ih { s with counter := s.counter - 1 } t ht
      refine ⟨s', ([Effect.forwardDetached, Effect.decCounter]
          ++ (if s.counter - 1 = 0 then [Effect.emitDetached] else [])) ++ tr,
        ?_, ht', ?_, ?_⟩
      · simp [runAD, adStep, detached_some_eq s t ht, hrun]
      · rw [countEff_append, ha]
        by_cases h1 : s.counter - 1 = 0
        · simp [countEff, h1, upTransitions]
        · simp [countEff, h1, upTransitions]
      · rw [countEff_append, hd]
        by_cases h1 : s.counter - 1 = 0
        · have h0 : s.counter = 1 := by omega
          simp [countEff, h1, h0, downTransitions]
        · have h0 : ¬ s.counter = 1 := by omega
          simp [countEff, h1, h0, downTransitions]

/-! Verification of the specification claims. -/

/-- C1: starting from a freshly constructed mirror, every attach/detach
call sequence in which no prefix has more detached() than attached() calls
runs without error, and its trace carries exactly one "attached" event per
transition of the attach count from 0 to 1 and exactly one "detached" event
per transition from 1 to 0 — hence no event on any other transition. -/
theorem attachDetachEventCounts (t : SourceTrack) (ops : List ADOp)
    (_hbal : balancedFrom 0 ops = true) :
    ∃ s' tr, runAD (construct t).1 ops = Except.ok (s', tr) ∧
      countEff Effect.emitAttached tr = upTransitions 0 ops ∧
      countEff Effect.emitDetached tr = downTransitions 0 ops := by
  obtain ⟨s', tr, h1, _, h3, h4⟩ := runAD_counts ops (construct t).1 t rfl
  exact ⟨s', tr, h1, h3, h4⟩

/-- Witness for C1 at the spec scenario: two attaches then two detaches on
a mirror of the one-encoding track t0. -/
theorem attachDetachEventCounts_witness :
    balancedFrom 0 [ADOp.att, ADOp.att, ADOp.det, ADOp.det] = true ∧
    ∃ s' tr, runAD (construct t0).1 [ADOp.att, ADOp.att, ADOp.det, ADOp.det]
        = Except.ok (s', tr) ∧
      countEff Effect.emitAttached tr
        = upTransitions 0 [ADOp.att, ADOp.att, ADOp.det, ADOp.det] ∧
      countEff Effect.emitDetached tr
        = downTransitions 0 [ADOp.att, ADOp.att, ADOp.det, ADOp.det] :=
  ⟨by rfl, attachDetachEventCounts t0 [ADOp.att, ADOp.att, ADOp.det, ADOp.det] (by rfl)⟩

/-- C2: stop() is idempotent — a second stop() on an already-stopped mirror
returns immediately with an empty trace: no listener removals, no Stop
calls on buffers or depacketizers, and no "stopped" event, so nothing is
released twice. -/
theorem stopIdempotent (s s' : MirrorState) (tr : List Effect)
    (h : s.stop = (Except.ok s', tr)) :
    s'.stop = (Except.ok s', []) :=
  stop_track_none s' (stop_ok_track_none s s' tr h)

/-- Witness for C2: the one-encoding mirror m0, stopped once and then
stopped again. -/
theorem stopIdempotent_witness :
    mStopped.stop = (Except.ok mStopped, []) :=
  stopIdempotent m0 mStopped
    [Effect.removeBufListener "0", Effect.stopSource "0",
     Effect.stopDepacketizer "0", Effect.emitStopped] (by rfl)

/-- C3 concerns a defect the code actually has (the claim states the
intended behavior): detached() on a freshly constructed mirror whose attach
count is 0 silently drives the counter to -1 — there is no saturation at
zero and the trace reports nothing about the unbalanced detach. -/
theorem detachAtZeroGoesNegative :
    m0.counter = 0 ∧
    m0.detached = Except.ok ({ m0 with counter := -1 },
      [Effect.forwardDetached, Effect.decCounter]) :=
  ⟨rfl, rfl⟩

/-- C4 is refuted at a concrete input: after the first stop() of the
one-encoding mirror m0, attached() does not return normally — it throws on
the cleared (null) track reference instead of being a guarded no-op. -/
theorem attachedAfterStopThrows :
    m0.stop = (Except.ok mStopped,
      [Effect.removeBufListener "0", Effect.stopSource "0",
       Effect.stopDepacketizer "0", Effect.emitStopped]) ∧
    mStopped.attached = Except.error (JsError.nullDeref "this.track.attached") :=
  ⟨rfl, rfl⟩

/-- C4 (amended): after stop() has been called on a live mirror, stop() and
refresh() are no-ops that return normally with no side effects and no
events, but attached() and detached() are not guarded: each throws on the
cleared (null) track reference (and emits nothing). -/
theorem postStopLifecycle (s s' : MirrorState) (t : SourceTrack) (tr : List Effect)
    (ht : s.track = some t) (h : s.stop = (Except.ok s', tr)) :
    s'.stop = (Except.ok s', []) ∧
    s'.refresh = Except.ok [] ∧
    s'.attached = Except.error (JsError.nullDeref "this.track.attached") ∧
    s'.detached = Except.error (JsError.nullDeref "this.track.detached") := by
  obtain ⟨h1, _, _⟩ := stop_some_ok_eq s s' t tr ht h
  subst h1
  exact ⟨stop_track_none _ rfl, rfl, rfl, rfl⟩

/-- Witness for C4 (amended) at the stopped one-encoding mirror. -/
theorem postStopLifecycle_witness :
    mStopped.stop = (Except.ok mStopped, []) ∧
    mStopped.refresh = Except.ok [] ∧
    mStopped.attached = Except.error (JsError.nullDeref "this.track.attached") ∧
    mStopped.detached = Except.error (JsError.nullDeref "this.track.detached") :=
  postStopLifecycle m0 mStopped t0
    [Effect.removeBufListener "0", Effect.stopSource "0",
     Effect.stopDepacketizer "0", Effect.emitStopped] (by rfl) (by rfl)

/-- C5: the first stop() on a live mirror — whenever every encoding id
currently on the source track is in the construction snapshot — performs,
in order: one listener removal per source encoding, then a Stop of every
mirrored encoding's duplication buffer and depacketizer, then exactly one
"stopped" event; the post-state has an empty encoding map and cleared track
and receiver references, and afterwards no attached/detached/stopped event
can be emitted (stop is the guarded early return, attached and detached
throw before reaching the emitter). -/
theorem firstStopBehavior (s : MirrorState) (t : SourceTrack)
    (ht : s.track = some t)
    (hc : ∀ te ∈ t.encodings, ∃ me ∈ s.encodings, me.id = te.id) :
    s.stop = (Except.ok (clearedState s.counter),
      t.encodings.map (fun te => Effect.removeBufListener te.id)
        ++ stopEffects s.encodings ++ [Effect.emitStopped]) ∧
    countEff Effect.emitStopped
      (t.encodings.map (fun te => Effect.removeBufListener te.id)
        ++ stopEffects s.encodings ++ [Effect.emitStopped]) = 1 ∧
    (clearedState s.counter).encodings = [] ∧
    (clearedState s.counter).track = none ∧
    (clearedState s.counter).receiver = false ∧
    (clearedState s.counter).stop = (Except.ok (clearedState s.counter), []) ∧
    (clearedState s.counter).attached
      = Except.error (JsError.nullDeref "this.track.attached") ∧
    (clearedState s.counter).detached
      = Except.error (JsError.nullDeref "this.track.detached") := by
  have hrl := removeLoop_complete s.encodings t.encodings hc
  refine ⟨?_, ?_, rfl, rfl, rfl, stop_track_none _ rfl, rfl, rfl⟩
  · simp [MirrorState.stop, ht, hrl]
  · rw [countEff_append, countEff_append, countEff_emitStopped_removals,
      countEff_emitStopped_stopEffects]
    rfl

/-- Witness for C5: the first stop() of the one-encoding mirror m0. -/
theorem firstStopBehavior_witness :
    m0.stop = (Except.ok (clearedState m0.counter),
      t0.encodings.map (fun te => Effect.removeBufListener te.id)
        ++ stopEffects m0.encodings ++ [Effect.emitStopped]) ∧
    countEff Effect.emitStopped
      (t0.encodings.map (fun te => Effect.removeBufListener te.id)
        ++ stopEffects m0.encodings ++ [Effect.emitStopped]) = 1 ∧
    (clearedState m0.counter).encodings = [] ∧
    (clearedState m0.counter).track = none ∧
    (clearedState m0.counter).receiver = false ∧
    (clearedState m0.counter).stop = (Except.ok (clearedState m0.counter), []) ∧
    (clearedState m0.counter).attached
      = Except.error (JsError.nullDeref "this.track.attached") ∧
    (clearedState m0.counter).detached
      = Except.error (JsError.nullDeref "this.track.detached") :=
  firstStopBehavior m0 t0 (by rfl) (by decide)

/-- C6: at construction the mirror's encoding ids are exactly the source
track's encoding ids at that moment (in order); every mirrored encoding
holds a duplication buffer bound to the source encoding's SSRC, with the
depacketizer reading from that very buffer, stored under the encoding id;
the constructor registers the buffer as listener on each source encoding;
and an encoding appended to the live source track afterwards is not
reflected in the mirror's map. -/
theorem constructionSnapshot (t : SourceTrack) (e1 : Encoding) :
    ((construct t).1.encodings.map MirrorEncoding.id = t.encodings.map Encoding.id) ∧
    (∀ me ∈ (construct t).1.encodings,
      ∃ en ∈ t.encodings,
        me.id = en.id ∧ me.source.ssrc = en.ssrc ∧ me.depacketizer = me.source) ∧
    ((construct t).2 = t.encodings.map (fun en => Effect.addBufListener en.id en.ssrc)) ∧
    (((construct t).1.sourceAddEncoding e1).encodings = (construct t).1.encodings) :=
  ⟨mkMirrorEncodings_map_id t.encodings, mem_mkMirrorEncodings t.encodings,
   mkListenerEffects_eq_map t.encodings, rfl⟩

/-- C7: refresh() issues exactly one PLI per encoding present in the
mirror's map at call time, addressed to that encoding's duplication-buffer
SSRC, through the receiver; on a stopped mirror the map is empty, so
refresh() issues nothing and is a no-op. -/
theorem refreshSendsPLI (s : MirrorState)
    (h : s.receiver = true ∨ s.encodings = []) :
    s.refresh = Except.ok (s.encodings.map (fun me => Effect.sendPLI me.source.ssrc)) := by
  cases he : s.encodings with
  | nil => simp [MirrorState.refresh, he]
  | cons a rest =>
    rcases h with h | h
    · simp [MirrorState.refresh, he, h, pliEffects_eq_map]
    · rw [h] at he
      cases he

/-- Witness for C7: the live one-encoding mirror m0 sends one PLI. -/
theorem refreshSendsPLI_witness :
    m0.refresh = Except.ok (m0.encodings.map (fun me => Effect.sendPLI me.source.ssrc)) :=
  refreshSendsPLI m0 (Or.inl rfl)

/-- C8: on a non-stopped mirror every read-only query returns exactly what
the same query on the source track returns, with no transformation (and, the
embedding being a pure function of the state, no state change). -/
theorem queriesForwardVerbatim (s : MirrorState) (t : SourceTrack)
    (ht : s.track = some t) :
    s.getStats = Except.ok t.getStats ∧
    s.getActiveLayers = Except.ok t.getActiveLayers ∧
    s.getId = Except.ok t.getId ∧
    s.getTrackInfo = Except.ok t.getTrackInfo ∧
    s.getSSRCs = Except.ok t.getSSRCs ∧
    s.getMedia = Except.ok t.getMedia := by
  simp [MirrorState.getStats, MirrorState.getActiveLayers, MirrorState.getId,
    MirrorState.getTrackInfo, MirrorState.getSSRCs, MirrorState.getMedia, ht]

/-- Witness for C8 at the live mirror m0 of t0. -/
theorem queriesForwardVerbatim_witness :
    m0.getStats = Except.ok t0.getStats ∧
    m0.getActiveLayers = Except.ok t0.getActiveLayers ∧
    m0.getId = Except.ok t0.getId ∧
    m0.getTrackInfo = Except.ok t0.getTrackInfo ∧
    m0.getSSRCs = Except.ok t0.getSSRCs ∧
    m0.getMedia = Except.ok t0.getMedia :=
  queriesForwardVerbatim m0 t0 (by rfl)

/-- C9: on a live mirror, attached() forwards the notification to the
source track as its first effect, before the counter increment, and the
"attached" event decision is taken on the post-update count; symmetrically
for detached() with the decrement and the "detached" event. -/
theorem forwardBeforeCounterUpdate (s : MirrorState) (t : SourceTrack)
    (ht : s.track = some t) :
    (∃ s1 tr, s.attached = Except.ok (s1, tr) ∧
      tr.head? = some Effect.forwardAttached ∧
      tr.get? 1 = some Effect.incCounter ∧
      s1.counter = s.counter + 1 ∧
      (Effect.emitAttached ∈ tr ↔ s1.counter = 1)) ∧
    (∃ s1 tr, s.detached = Except.ok (s1, tr) ∧
      tr.head? = some Effect.forwardDetached ∧
      tr.get? 1 = some Effect.decCounter ∧
      s1.counter = s.counter - 1 ∧
      (Effect.emitDetached ∈ tr ↔ s1.counter = 0)) := by
  constructor
  · refine ⟨{ s with counter := s.counter + 1 },
      [Effect.forwardAttached, Effect.incCounter]
        ++ (if s.counter + 1 = 1 then [Effect.emitAttached] else []),
      attached_some_eq s t ht, rfl, rfl, rfl, ?_⟩
    by_cases h1 : s.counter + 1 = 1 <;> simp [h1]
  · refine ⟨{ s with counter := s.counter - 1 },
      [Effect.forwardDetached, Effect.decCounter]
        ++ (if s.counter - 1 = 0 then [Effect.emitDetached] else []),
      detached_some_eq s t ht, rfl, rfl, rfl, ?_⟩
    by_cases h1 : s.counter - 1 = 0 <;> simp [h1]

/-- Witness for C9 at the live mirror m0 of t0. -/
theorem forwardBeforeCounterUpdate_witness :
    (∃ s1 tr, m0.attached = Except.ok (s1, tr) ∧
      tr.head? = some Effect.forwardAttached ∧
      tr.get? 1 = some Effect.incCounter ∧
      s1.counter = m0.counter + 1 ∧
      (Effect.emitAttached ∈ tr ↔ s1.counter = 1)) ∧
    (∃ s1 tr, m0.detached = Except.ok (s1, tr) ∧
      tr.head? = some Effect.forwardDetached ∧
      tr.get? 1 = some Effect.decCounter ∧
      s1.counter = m0.counter - 1 ∧
      (Effect.emitDetached ∈ tr ↔ s1.counter = 0)) :=
  forwardBeforeCounterUpdate m0 t0 (by rfl)

/-- C10: stop() on a live mirror succeeds exactly when every encoding id
currently present on the source track is in the construction-time
snapshot; when some current id is missing, the lookup fails (a TypeError on
the undefined map entry) and the effects performed up to the failure are
listener removals only — no buffer or depacketizer Stop, no event. -/
theorem stopRequiresSnapshotIds (s : MirrorState) (t : SourceTrack)
    (ht : s.track = some t) :
    ((∃ s2 tr, s.stop = (Except.ok s2, tr))
        ↔ ∀ te ∈ t.encodings, ∃ me ∈ s.encodings, me.id = te.id) ∧
    ((¬ ∀ te ∈ t.encodings, ∃ me ∈ s.encodings, me.id = te.id) →
      (s.stop).1 = Except.error (JsError.nullDeref "this.encodings.get(id).source") ∧
      ∀ eff ∈ (s.stop).2, ∃ i, eff = Effect.removeBufListener i) := by
  by_cases hr : (removeLoop s.encodings t.encodings).2 = true
  · have hall := (removeLoop_true_iff s.encodings t.encodings).mp hr
    refine ⟨⟨fun _ => hall, fun _ => ?_⟩, fun hna => absurd hall hna⟩
    exact ⟨clearedState s.counter,
      (removeLoop s.encodings t.encodings).1 ++ stopEffects s.encodings
        ++ [Effect.emitStopped],
      by simp [MirrorState.stop, ht, hr]⟩
  · have hnall : ¬ ∀ te ∈ t.encodings, ∃ me ∈ s.encodings, me.id = te.id :=
      fun hall => hr ((removeLoop_true_iff s.encodings t.encodings).mpr hall)
    have herr : (s.stop).1
        = Except.error (JsError.nullDeref "this.encodings.get(id).source") := by
      simp [MirrorState.stop, ht, hr]
    have heffs : (s.stop).2 = (removeLoop s.encodings t.encodings).1 := by
      simp [MirrorState.stop, ht, hr]
    refine ⟨⟨fun hok => ?_, fun hall => absurd hall hnall⟩, fun _ => ⟨herr, ?_⟩⟩
    · obtain ⟨s2, tr2, hok⟩ := hok
      have hfst := congrArg Prod.fst hok
      simp only at hfst
      rw [herr] at hfst
      exact Except.noConfusion hfst
    · intro eff heff
      rw [heffs] at heff
      exact removeLoop_effects_shape s.encodings t.encodings eff heff

/-- Witness for C10: mirror m1 of t0 whose live source track gained
encoding "1" (SSRC 2000) after construction; its stop() fails with only the
removal of encoding "0" performed. -/
theorem stopRequiresSnapshotIds_witness :
    ((∃ s2 tr, m1.stop = (Except.ok s2, tr))
        ↔ ∀ te ∈ t1.encodings, ∃ me ∈ m1.encodings, me.id = te.id) ∧
    ((¬ ∀ te ∈ t1.encodings, ∃ me ∈ m1.encodings, me.id = te.id) →
      (m1.stop).1 = Except.error (JsError.nullDeref "this.encodings.get(id).source") ∧
      ∀ eff ∈ (m1.stop).2, ∃ i, eff = Effect.removeBufListener i) :=
  stopRequiresSnapshotIds m1 t1 (by rfl)

end MediaServer
